import Mathlib

/-!
Verification of the DCN data-collection service
(`dcn_project/services/collector/src/main.py`).

The development shallowly embeds the collector service: the `Metric`
value object produced by `MetricCollector.format_metric`, the three
concrete collector variants (`ONTAPCollector`, `StorageGRIDCollector`,
`GenericCollector`), the Kafka publisher (`KafkaProducerManager.send_metrics`),
and the orchestrator (`CollectorService._init_collectors`,
`CollectorService.collect_and_send`, `CollectorService.run`).

Python dictionaries of string-keyed labels are embedded as association
lists `List (String × String)`; "the same labels mapping" is key-by-key
lookup agreement (`labelsSameMap`), not list equality.  Fallible Python
calls are embedded as `Except String`; `asyncio.gather(*,
return_exceptions := true)` therefore yields a `List (Except String (List
Metric))`, one entry per dispatched collector, in dispatch order.
Wall-clock reads (`time.time`) are threaded as explicit parameters.
-/

namespace DCN

/-- A metric record, as built by `MetricCollector.format_metric`:
keys `name`, `value`, `labels`, `timestamp`, `collector`. -/
structure Metric where
  name : String
  value : Rat
  labels : List (String × String)
  timestamp : Int
  collector : String
deriving DecidableEq, Repr

/-- `MetricCollector.format_metric`.  The Python default expression is
`timestamp or int(time.time() * 1000)`: the wall clock (`now`) is used
whenever the caller-supplied timestamp is falsy, i.e. absent (`none`)
or equal to `0`. -/
def format_metric (collectorName : String) (name : String) (value : Rat)
    (labels : List (String × String)) (timestamp : Option Int) (now : Int) : Metric :=
  { name := name
    value := value
    labels := labels
    timestamp :=
      match timestamp with
      | none => now
      | some t => if t = 0 then now else t
    collector := collectorName }

/-! ## Concrete collector variants (happy path)

The simulated backend calls in the source always succeed and return
fixed shapes; they are embedded literally. -/

/-- The node list hard-coded in `ONTAPCollector._collect_iops`,
`_collect_latency` and `_collect_throughput`. -/
def ontapNodes : List String := ["node-01", "node-02", "node-03"]

/-- The aggregate list hard-coded in `ONTAPCollector._collect_capacity`. -/
def ontapAggregates : List String := ["aggr1", "aggr2", "aggr3"]

/-- `ONTAPCollector._collect_iops` for one cluster. -/
def collect_iops (clusterName : String) (now : Int) : List Metric :=
  ontapNodes.flatMap fun node =>
    [ format_metric "ontap" "dcn_storage_iops_total" 1500
        [("cluster", clusterName), ("node", node), ("type", "read")] none now,
      format_metric "ontap" "dcn_storage_iops_total" 800
        [("cluster", clusterName), ("node", node), ("type", "write")] none now ]

/-- `ONTAPCollector._collect_latency` for one cluster. -/
def collect_latency (clusterName : String) (now : Int) : List Metric :=
  ontapNodes.flatMap fun node =>
    [ format_metric "ontap" "dcn_storage_latency_milliseconds" 2.5
        [("cluster", clusterName), ("node", node), ("operation", "read")] none now,
      format_metric "ontap" "dcn_storage_latency_milliseconds" 3.2
        [("cluster", clusterName), ("node", node), ("operation", "write")] none now ]

/-- `ONTAPCollector._collect_throughput` for one cluster. -/
def collect_throughput (clusterName : String) (now : Int) : List Metric :=
  ontapNodes.flatMap fun node =>
    [ format_metric "ontap" "dcn_storage_throughput_bytes_per_second" 104857600
        [("cluster", clusterName), ("node", node)] none now ]

/-- `ONTAPCollector._collect_capacity` for one cluster. -/
def collect_capacity (clusterName : String) (now : Int) : List Metric :=
  ontapAggregates.flatMap fun aggregate =>
    [ format_metric "ontap" "dcn_storage_capacity_bytes" 10995116277760
        [("cluster", clusterName), ("aggregate", aggregate), ("type", "total")] none now,
      format_metric "ontap" "dcn_storage_capacity_bytes" 5497558138880
        [("cluster", clusterName), ("aggregate", aggregate), ("type", "used")] none now ]

/-- One iteration of the cluster loop in `ONTAPCollector.collect`:
the four sub-collections for one cluster, concatenated in program order. -/
def ontapClusterBlock (clusterName : String) (now : Int) : List Metric :=
  collect_iops clusterName now ++ collect_latency clusterName now ++
    collect_throughput clusterName now ++ collect_capacity clusterName now

/-- `ONTAPCollector.collect` on the happy path (no sub-query raises):
the cluster loop accumulates each cluster's four sub-collections in order. -/
def ontapCollectOk (clusters : List String) (now : Int) : List Metric :=
  clusters.flatMap fun c => ontapClusterBlock c now

/-- The operations hard-coded in `StorageGRIDCollector._collect_s3_metrics`. -/
def s3Operations : List String := ["GET", "PUT", "DELETE", "LIST"]

/-- `StorageGRIDCollector._collect_s3_metrics` for one grid. -/
def collect_s3_metrics (gridName : String) (now : Int) : List Metric :=
  s3Operations.flatMap fun operation =>
    [ format_metric "storagegrid" "dcn_storagegrid_s3_operations_total" 15000
        [("grid", gridName), ("operation", operation)] none now ]

/-- `StorageGRIDCollector._collect_grid_capacity` for one grid. -/
def collect_grid_capacity (gridName : String) (now : Int) : List Metric :=
  [ format_metric "storagegrid" "dcn_storagegrid_capacity_bytes" 549755813888000
      [("grid", gridName), ("type", "total")] none now,
    format_metric "storagegrid" "dcn_storagegrid_capacity_bytes" 274877906944000
      [("grid", gridName), ("type", "used")] none now ]

/-- `StorageGRIDCollector.collect` on the happy path. -/
def gridCollectOk (grids : List String) (now : Int) : List Metric :=
  grids.flatMap fun g => collect_s3_metrics g now ++ collect_grid_capacity g now

/-- `GenericCollector._collect_from_source` for one source. -/
def collect_from_source (sourceName : String) (now : Int) : List Metric :=
  [ format_metric "generic" ("dcn_" ++ sourceName ++ "_metric") 100
      [("source", sourceName)] none now ]

/-- `GenericCollector.collect` on the happy path. -/
def genericCollectOk (sources : List String) (now : Int) : List Metric :=
  sources.flatMap fun s => collect_from_source s now

/-! ## Collector control flow with fallible sub-queries

`ONTAPCollector.collect` wraps its whole cluster loop in one
`try/except`: any exception from any sub-query aborts the loop and the
handler returns `[]`.  The sub-queries are abstracted as fallible
functions so the try/except structure itself can be examined (the
shipped `_collect_*` bodies are simulation placeholders; e.g. a
malformed entry in `clusters` makes `cluster.get("name")` raise
mid-loop). -/

/-- The body of the `try` block of `ONTAPCollector.collect`: loop over
clusters, run the four sub-queries in order, accumulate; any raised
exception propagates out of the loop. -/
def ontapBody (subIops subLatency subThroughput subCapacity : String → Except String (List Metric)) :
    List String → Except String (List Metric)
  | [] => Except.ok []
  | c :: rest => do
    let m1 ← subIops c
    let m2 ← subLatency c
    let m3 ← subThroughput c
    let m4 ← subCapacity c
    let ms ← ontapBody subIops subLatency subThroughput subCapacity rest
    Except.ok (m1 ++ m2 ++ m3 ++ m4 ++ ms)

/-- `ONTAPCollector.collect` with fallible sub-queries: the `except`
handler logs and returns `[]`, discarding the accumulator. -/
def ontapCollect (subIops subLatency subThroughput subCapacity : String → Except String (List Metric))
    (clusters : List String) : List Metric :=
  match ontapBody subIops subLatency subThroughput subCapacity clusters with
  | Except.ok ms => ms
  | Except.error _ => []

/-! ## Orchestrator: fan-out, fan-in, configuration -/

/-- Per-collector configuration dictionary (the fields the service
reads; absent keys are modelled by the `Option`s and defaults at use
sites, mirroring `dict.get`). -/
structure CollectorCfg where
  enabled : Bool := false
  timeout : Option Nat := none
  clusters : List String := []
  grids : List String := []
  sources : List String := []
deriving DecidableEq, Repr

/-- The service configuration dictionary (`config` in `CollectorService`). -/
structure ServiceConfig where
  pollInterval : Rat := 60
  ontap : Option CollectorCfg := none
  storagegrid : Option CollectorCfg := none
  generic : Option CollectorCfg := none
deriving DecidableEq, Repr

/-- `collectors_config.get(name, {}).get('enabled', False)` in
`CollectorService._init_collectors`. -/
def cfgEnabled (cfg : Option CollectorCfg) : Bool :=
  (cfg.map (fun c => c.enabled)).getD false

/-- `self.enabled = config.get('enabled', True)` in
`MetricCollector.__init__` (note the different default). -/
def instanceEnabled (cfg : Option CollectorCfg) : Bool :=
  (cfg.map (fun c => c.enabled)).getD true

/-- `self.timeout = config.get('timeout', 30)` in `MetricCollector.__init__`. -/
def instanceTimeout (cfg : Option CollectorCfg) : Nat :=
  ((cfg.map (fun c => c.timeout)).getD none).getD 30

/-- The three collector classes registered by
`CollectorService._init_collectors`. -/
inductive CollectorTag where
  | ontap
  | storagegrid
  | generic
deriving DecidableEq, Repr

/-- `self.name` of each collector instance (set by each subclass's
`__init__` via `super().__init__`). -/
def collectorName : CollectorTag → String
  | CollectorTag.ontap => "ontap"
  | CollectorTag.storagegrid => "storagegrid"
  | CollectorTag.generic => "generic"

/-- The per-collector configuration dictionary each tag is constructed from. -/
def cfgOf (cfg : ServiceConfig) : CollectorTag → Option CollectorCfg
  | CollectorTag.ontap => cfg.ontap
  | CollectorTag.storagegrid => cfg.storagegrid
  | CollectorTag.generic => cfg.generic

/-- `CollectorService._init_collectors`: append each collector, in the
fixed registration order ontap, storagegrid, generic, exactly when its
configuration's `enabled` is truthy (default `False`). -/
def initCollectors (cfg : ServiceConfig) : List CollectorTag :=
  (if cfgEnabled cfg.ontap then [CollectorTag.ontap] else []) ++
    (if cfgEnabled cfg.storagegrid then [CollectorTag.storagegrid] else []) ++
      (if cfgEnabled cfg.generic then [CollectorTag.generic] else [])

/-- The fan-out set of `CollectorService.collect_and_send`:
`[collector.collect() for collector in self.collectors if collector.enabled]`. -/
def dispatchList (cfg : ServiceConfig) : List CollectorTag :=
  (initCollectors cfg).filter fun t => instanceEnabled (cfgOf cfg t)

/-- The metrics one registered collector produces in one cycle (the
concrete simulated backends never raise, so the happy-path `collect`
bodies apply). -/
def runCollector (cfg : ServiceConfig) (t : CollectorTag) (now : Int) : List Metric :=
  match t with
  | CollectorTag.ontap => ontapCollectOk ((cfg.ontap.map (fun c => c.clusters)).getD []) now
  | CollectorTag.storagegrid => gridCollectOk ((cfg.storagegrid.map (fun c => c.grids)).getD []) now
  | CollectorTag.generic => genericCollectOk ((cfg.generic.map (fun c => c.sources)).getD []) now

/-- One iteration of the fan-in loop of `CollectorService.collect_and_send`:
`all_metrics.extend(result)` when the gather result is a list, a log
(and no change to `all_metrics`) when it is an exception. -/
def aggStep (acc : List Metric) (r : Except String (List Metric)) : List Metric :=
  match r with
  | Except.ok ms => acc ++ ms
  | Except.error _ => acc

/-- The fan-in loop of `CollectorService.collect_and_send`: iterate the
`asyncio.gather(..., return_exceptions=True)` results in dispatch order,
starting from the empty `all_metrics`. -/
def aggregateResults (results : List (Except String (List Metric))) : List Metric :=
  results.foldl aggStep []

/-- One call to `CollectorService.collect_and_send` with the concrete
collectors: fan out to the dispatch list, fan in, flatten. -/
def cycleBatch (cfg : ServiceConfig) (now : Int) : List Metric :=
  aggregateResults ((dispatchList cfg).map fun t => Except.ok (runCollector cfg t now))

/-! ## Orchestrator fan-out timing

The dispatch in `collect_and_send` is `asyncio.gather` over the bare
coroutines `collector.collect()`: no `asyncio.wait_for` or any other
time bound is applied, so the outcome of a dispatched task is whatever
`collect()` itself produces, however long it runs.  A dispatched task is
modelled with its collector's configured timeout, its actual running
time and its outcome, so that the (absent) relationship between the
three can be stated. -/

/-- One dispatched `collect()` task: the collector's configured timeout
(`MetricCollector.__init__`), the call's actual duration, and its outcome. -/
structure DispatchedTask where
  timeout : Nat
  duration : Nat
  outcome : Except String (List Metric)
deriving Repr

/-- Build a dispatched task for a collector constructed from `cfg`
(timeout from `config.get('timeout', 30)`). -/
def mkTask (cfg : Option CollectorCfg) (duration : Nat)
    (outcome : Except String (List Metric)) : DispatchedTask :=
  { timeout := instanceTimeout cfg, duration := duration, outcome := outcome }

/-- The per-task result the orchestrator's `gather` call observes: the
task's own outcome.  The source applies no time bound to the task. -/
def fanOutResult (t : DispatchedTask) : Except String (List Metric) :=
  t.outcome

/-- Modelled from the spec's words, for comparison with `fanOutResult`:
"Each dispatch is independently bounded by that collector's timeout; a
timeout ... yields a per-collector failure record". -/
def fanOutSpecResult (t : DispatchedTask) : Except String (List Metric) :=
  if t.timeout < t.duration then Except.error "CollectorTimeout" else t.outcome

/-! ## Publisher (`KafkaProducerManager.send_metrics`) -/

/-- One call's broker-side conditions: how many records the broker
reports as failed (each reported through `_delivery_callback` with
`err` set), whether `producer.flush(timeout=10)` returned with records
still unacknowledged (its `int` return value is ignored by the source
and it raises no exception on timeout), and whether `producer.produce`
itself raised (e.g. `BufferError`). -/
structure BrokerConditions where
  deliveryFailures : Nat
  flushTimedOut : Bool
  produceRaised : Bool
deriving DecidableEq, Repr

/-- What one `send_metrics` call yields: the value returned to the
caller (`none` = Python `None`, `some e` = a failure result carrying
an error), and whether any error was logged inside the publisher. -/
structure SendOutcome where
  returnedFailure : Option String
  loggedError : Bool
deriving DecidableEq, Repr

/-- `KafkaProducerManager.send_metrics`: the `try` block produces each
record and flushes; a raised exception is caught and logged; delivery
failures are logged by `_delivery_callback`; the function body has no
`return` statement, so the caller always receives `None`. -/
def send_metrics (env : BrokerConditions) : SendOutcome :=
  { returnedFailure := none
    loggedError := env.produceRaised || decide (0 < env.deliveryFailures) }

/-- Modelled from the spec's words, for comparison with `send_metrics`:
"on timeout or broker-reported delivery failure, `send` returns a
failure that the Orchestrator logs". -/
def sendSpecResult (env : BrokerConditions) : Option String :=
  if env.flushTimedOut || decide (0 < env.deliveryFailures) then some "PublishFailure" else none

/-! ## Orchestrator cadence loop (`CollectorService.run`) -/

/-- The sleep computed at the bottom of each iteration of
`CollectorService.run`: `await asyncio.sleep(max(0, poll_interval - elapsed))`. -/
def cycleSleep (pollInterval elapsed : Rat) : Rat :=
  max 0 (pollInterval - elapsed)

/-- The orchestrator state carried between iterations of
`CollectorService.run`: of the `CollectorService` fields, only
`running` changes across cycles — no field stores metrics. -/
structure OrchestratorState where
  running : Bool
deriving DecidableEq, Repr

/-- Batches handed to `send_metrics`, cycle by cycle, by
`CollectorService.run` over `fuel` iterations.  Each cycle fans in that
cycle's gather results (`results 0` for the current cycle) and hands the
flattened batch to the publisher; `publishFails` tells whether that
cycle's publish fails, which the loop does not observe (the publisher
returns `None` either way).  The state is threaded to show nothing
metric-valued crosses a cycle boundary. -/
def batchesSent (results : Nat → List (Except String (List Metric)))
    (publishFails : Nat → Bool) : Nat → OrchestratorState → List (List Metric)
  | 0, _ => []
  | fuel + 1, s =>
    aggregateResults (results 0) ::
      batchesSent (fun k => results (k + 1)) (fun k => publishFails (k + 1)) fuel s

/-! ## Label mappings and series keys -/

/-- Two label dictionaries are the same mapping when every key looks up
to the same value (Python `dict` equality is insertion-order
independent). -/
def labelsSameMap (l1 l2 : List (String × String)) : Prop :=
  ∀ k, l1.lookup k = l2.lookup k

/-- The duplicate-emission invariant for one collector's per-cycle
output: no two produced metrics agree on both `name` and the `labels`
mapping. -/
def noDupKeys (ms : List Metric) : Prop :=
  ms.Pairwise fun m1 m2 => ¬(m1.name = m2.name ∧ labelsSameMap m1.labels m2.labels)

/-- The series-identifying projection of an ONTAP metric: its name plus
the label values at the non-cluster dimension keys the variant uses.
It never inspects the cluster label or the timestamp. -/
def ontapKey (m : Metric) :
    String × Option String × Option String × Option String × Option String :=
  (m.name, m.labels.lookup "node", m.labels.lookup "type",
    m.labels.lookup "operation", m.labels.lookup "aggregate")

/-- The 21 series keys one ONTAP cluster block produces.  They are
independent of the cluster name and of the clock, so the block of an
arbitrary fixed cluster enumerates them. -/
def ontapBlockKeyList :
    List (String × Option String × Option String × Option String × Option String) :=
  (ontapClusterBlock "cluster" 0).map ontapKey

/-! ## Concrete probe sub-queries for the fallible collector body -/

/-- A sub-query that succeeds with one probe metric for the cluster. -/
def subQueryOk (clusterName : String) : Except String (List Metric) :=
  Except.ok [format_metric "ontap" "dcn_probe_metric" 1 [("cluster", clusterName)] none 0]

/-- A latency sub-query whose backend is down for cluster `c2` only. -/
def subQueryLatencyDown (clusterName : String) : Except String (List Metric) :=
  if clusterName = "c2" then Except.error "latency backend down" else subQueryOk clusterName

/-- A configuration with the ONTAP collector disabled (absent from the
collectors dictionary) and the StorageGRID collector enabled on one grid. -/
def cfgOntapDisabled : ServiceConfig :=
  { pollInterval := 60
    ontap := none
    storagegrid := some { enabled := true, grids := ["grid-01"] }
    generic := none }

/-! ## Basic lemmas about fan-in -/

theorem aggregateResults_foldl (results : List (Except String (List Metric)))
    (acc : List Metric) :
    results.foldl aggStep acc = acc ++ aggregateResults results := by
  induction results generalizing acc with
  | nil => simp [aggregateResults]
  | cons r rest ih =>
    simp only [aggregateResults, List.foldl_cons]
    rw [ih, ih (aggStep [] r)]
    cases r with
    | ok ms => simp [aggStep, List.append_assoc]
    | error e => simp [aggStep]

theorem aggregateResults_nil : aggregateResults [] = [] := rfl

theorem aggregateResults_cons (r : Except String (List Metric))
    (rest : List (Except String (List Metric))) :
    aggregateResults (r :: rest) = aggStep [] r ++ aggregateResults rest := by
  simp only [aggregateResults, List.foldl_cons]
  rw [aggregateResults_foldl]
  rfl

theorem aggregateResults_append (rs₁ rs₂ : List (Except String (List Metric))) :
    aggregateResults (rs₁ ++ rs₂) = aggregateResults rs₁ ++ aggregateResults rs₂ := by
  induction rs₁ with
  | nil => simp [aggregateResults_nil]
  | cons r rest ih =>
    rw [List.cons_append, aggregateResults_cons, aggregateResults_cons, ih,
      List.append_assoc]

theorem mem_aggregateResults (rs : List (Except String (List Metric))) (m : Metric) :
    m ∈ aggregateResults rs ↔ ∃ l, Except.ok l ∈ rs ∧ m ∈ l := by
  induction rs with
  | nil => simp [aggregateResults_nil]
  | cons r rest ih =>
    rw [aggregateResults_cons]
    cases r with
    | ok ms =>
      simp only [aggStep, List.nil_append, List.mem_append, ih, List.mem_cons]
      constructor
      · rintro (hm | ⟨l, hl, hml⟩)
        · exact ⟨ms, Or.inl rfl, hm⟩
        · exact ⟨l, Or.inr hl, hml⟩
      · rintro ⟨l, hl | hl, hml⟩
        · cases Except.ok.inj hl
          exact Or.inl hml
        · exact Or.inr ⟨l, hl, hml⟩
    | error e =>
      simp only [aggStep, List.nil_append, ih, List.mem_cons]
      constructor
      · rintro ⟨l, hl, hml⟩
        exact ⟨l, Or.inr hl, hml⟩
      · rintro ⟨l, hl | hl, hml⟩
        · exact absurd hl (by simp)
        · exact ⟨l, hl, hml⟩

theorem aggregateResults_map_ok (ls : List (List Metric)) :
    aggregateResults (ls.map Except.ok) = ls.flatten := by
  induction ls with
  | nil => rfl
  | cons l rest ih =>
    rw [List.map_cons, aggregateResults_cons, List.flatten_cons, ih]
    rfl

/-! ## Lemmas about the cadence loop -/

theorem batchesSent_publish_independent (results : Nat → List (Except String (List Metric)))
    (pf pf' : Nat → Bool) (fuel : Nat) (s : OrchestratorState) :
    batchesSent results pf fuel s = batchesSent results pf' fuel s := by
  induction fuel generalizing results pf pf' with
  | zero => rfl
  | succ n ih =>
    simp only [batchesSent]
    exact congrArg _ (ih _ _ _)

theorem batchesSent_getElem (results : Nat → List (Except String (List Metric)))
    (pf : Nat → Bool) (s : OrchestratorState) :
    ∀ fuel n, n < fuel →
      (batchesSent results pf fuel s)[n]? = some (aggregateResults (results n)) := by
  intro fuel
  induction fuel generalizing results pf with
  | zero => intro n hn; exact absurd hn (Nat.not_lt_zero n)
  | succ fuel ih =>
    intro n hn
    cases n with
    | zero => simp [batchesSent]
    | succ n =>
      simp only [batchesSent, List.getElem?_cons_succ]
      exact ih _ _ n (Nat.lt_of_succ_lt_succ hn)

/-! ## Lemmas about collector registration and dispatch -/

theorem cfgEnabled_of_mem_initCollectors {cfg : ServiceConfig} {t : CollectorTag}
    (h : t ∈ initCollectors cfg) : cfgEnabled (cfgOf cfg t) = true := by
  simp only [initCollectors, List.mem_append] at h
  rcases h with (h | h) | h
  · by_cases hc : cfgEnabled cfg.ontap = true
    · simp only [hc, if_true, List.mem_singleton] at h
      subst h; exact hc
    · simp [hc] at h
  · by_cases hc : cfgEnabled cfg.storagegrid = true
    · simp only [hc, if_true, List.mem_singleton] at h
      subst h; exact hc
    · simp [hc] at h
  · by_cases hc : cfgEnabled cfg.generic = true
    · simp only [hc, if_true, List.mem_singleton] at h
      subst h; exact hc
    · simp [hc] at h

theorem instanceEnabled_of_cfgEnabled {o : Option CollectorCfg}
    (h : cfgEnabled o = true) : instanceEnabled o = true := by
  cases o with
  | none => exact absurd h (by decide)
  | some c => exact h

theorem dispatchList_eq_initCollectors (cfg : ServiceConfig) :
    dispatchList cfg = initCollectors cfg := by
  unfold dispatchList
  rw [List.filter_eq_self]
  intro t ht
  exact instanceEnabled_of_cfgEnabled (cfgEnabled_of_mem_initCollectors ht)

/-! ## Collector-stamping lemmas: every produced metric carries its
variant's name in the `collector` field (`format_metric` stamps
`self.name`). -/

theorem collector_stamp_ontap (clusters : List String) (now : Int) :
    ∀ m ∈ ontapCollectOk clusters now, m.collector = "ontap" := by
  intro m hm
  simp only [ontapCollectOk, List.mem_flatMap] at hm
  obtain ⟨c, _, hm⟩ := hm
  have h1 : m.collector ∈ (ontapClusterBlock c now).map (fun x => x.collector) :=
    List.mem_map_of_mem _ hm
  rw [show (ontapClusterBlock c now).map (fun x => x.collector) =
      List.replicate 21 "ontap" from rfl] at h1
  exact List.eq_of_mem_replicate h1

theorem collector_stamp_grid (grids : List String) (now : Int) :
    ∀ m ∈ gridCollectOk grids now, m.collector = "storagegrid" := by
  intro m hm
  simp only [gridCollectOk, List.mem_flatMap] at hm
  obtain ⟨g, _, hm⟩ := hm
  have h1 : m.collector ∈
      (collect_s3_metrics g now ++ collect_grid_capacity g now).map (fun x => x.collector) :=
    List.mem_map_of_mem _ hm
  rw [show (collect_s3_metrics g now ++ collect_grid_capacity g now).map
      (fun x => x.collector) = List.replicate 6 "storagegrid" from rfl] at h1
  exact List.eq_of_mem_replicate h1

theorem collector_stamp_generic (sources : List String) (now : Int) :
    ∀ m ∈ genericCollectOk sources now, m.collector = "generic" := by
  intro m hm
  simp only [genericCollectOk, List.mem_flatMap] at hm
  obtain ⟨s, _, hm⟩ := hm
  have h1 : m.collector ∈ (collect_from_source s now).map (fun x => x.collector) :=
    List.mem_map_of_mem _ hm
  rw [show (collect_from_source s now).map (fun x => x.collector) =
      List.replicate 1 "generic" from rfl] at h1
  exact List.eq_of_mem_replicate h1

theorem collector_stamp (cfg : ServiceConfig) (t : CollectorTag) (now : Int) :
    ∀ m ∈ runCollector cfg t now, m.collector = collectorName t := by
  cases t with
  | ontap => exact collector_stamp_ontap _ _
  | storagegrid => exact collector_stamp_grid _ _
  | generic => exact collector_stamp_generic _ _

theorem collectorName_injective {t1 t2 : CollectorTag}
    (h : collectorName t1 = collectorName t2) : t1 = t2 := by
  cases t1 <;> cases t2 <;> first | rfl | exact absurd h (by decide)

/-! ## Series-key distinctness lemmas -/

theorem labelsSameMap_refl (l : List (String × String)) : labelsSameMap l l :=
  fun _ => rfl

theorem ontapKey_ne_of_not_same (m1 m2 : Metric) (hk : ontapKey m1 ≠ ontapKey m2) :
    ¬(m1.name = m2.name ∧ labelsSameMap m1.labels m2.labels) := by
  rintro ⟨hn, hm⟩
  apply hk
  unfold ontapKey
  rw [hn, hm "node", hm "type", hm "operation", hm "aggregate"]

theorem ontapKey_map_block (c : String) (now : Int) :
    (ontapClusterBlock c now).map ontapKey = ontapBlockKeyList := rfl

theorem ontapBlockKeyList_nodup : ontapBlockKeyList.Nodup := by decide

theorem ontapClusterBlock_pairwise (c : String) (now : Int) :
    (ontapClusterBlock c now).Pairwise
      fun m1 m2 => ¬(m1.name = m2.name ∧ labelsSameMap m1.labels m2.labels) := by
  have hnodup : ((ontapClusterBlock c now).map ontapKey).Nodup := by
    rw [ontapKey_map_block]
    exact ontapBlockKeyList_nodup
  rw [List.Nodup, List.pairwise_map] at hnodup
  exact hnodup.imp fun hk => ontapKey_ne_of_not_same _ _ hk

theorem cluster_label_of_mem_block {c : String} {now : Int} {m : Metric}
    (hm : m ∈ ontapClusterBlock c now) : m.labels.lookup "cluster" = some c := by
  have h1 : m.labels.lookup "cluster" ∈
      (ontapClusterBlock c now).map (fun x => x.labels.lookup "cluster") :=
    List.mem_map_of_mem _ hm
  rw [show (ontapClusterBlock c now).map (fun x => x.labels.lookup "cluster") =
      List.replicate 21 (some c) from rfl] at h1
  exact List.eq_of_mem_replicate h1

theorem ontap_noDupKeys (clusters : List String) (now : Int) (h : clusters.Nodup) :
    noDupKeys (ontapCollectOk clusters now) := by
  unfold noDupKeys ontapCollectOk
  rw [List.flatMap_def, List.pairwise_flatten]
  constructor
  · intro l hl
    rw [List.mem_map] at hl
    obtain ⟨c, _, rfl⟩ := hl
    exact ontapClusterBlock_pairwise c now
  · rw [List.pairwise_map]
    refine h.imp ?_
    intro c1 c2 hne m1 hm1 m2 hm2 hcon
    obtain ⟨hn, hm⟩ := hcon
    have e1 := cluster_label_of_mem_block hm1
    have e2 := cluster_label_of_mem_block hm2
    have e3 := hm "cluster"
    rw [e1, e2] at e3
    exact hne (Option.some.inj e3)

theorem generic_noDupKeys (sources : List String) (now : Int) (h : sources.Nodup) :
    noDupKeys (genericCollectOk sources now) := by
  unfold noDupKeys genericCollectOk
  rw [List.flatMap_def, List.pairwise_flatten]
  constructor
  · intro l hl
    rw [List.mem_map] at hl
    obtain ⟨s, _, rfl⟩ := hl
    exact List.Pairwise.cons (fun b hb => absurd hb (List.not_mem_nil b)) List.Pairwise.nil
  · rw [List.pairwise_map]
    refine h.imp ?_
    intro s1 s2 hne m1 hm1 m2 hm2 hcon
    obtain ⟨hn, hm⟩ := hcon
    rw [show collect_from_source s1 now = [format_metric "generic" ("dcn_" ++ s1 ++ "_metric")
        100 [("source", s1)] none now] from rfl, List.mem_singleton] at hm1
    rw [show collect_from_source s2 now = [format_metric "generic" ("dcn_" ++ s2 ++ "_metric")
        100 [("source", s2)] none now] from rfl, List.mem_singleton] at hm2
    subst hm1
    subst hm2
    have e3 := hm "source"
    rw [show ((format_metric "generic" ("dcn_" ++ s1 ++ "_metric")
        100 [("source", s1)] none now).labels).lookup "source" = some s1 from rfl,
      show ((format_metric "generic" ("dcn_" ++ s2 ++ "_metric")
        100 [("source", s2)] none now).labels).lookup "source" = some s2 from rfl] at e3
    exact hne (Option.some.inj e3)

/-! ## Claims -/

/-- C1: in a cycle where some collectors' `collect()` calls fail and
others succeed, the batch built by the fan-in of
`CollectorService.collect_and_send` contains exactly the metrics of the
succeeding collectors — a metric is in the batch iff it belongs to some
successful gather result, so a failing collector (an exception entry in
the `asyncio.gather` results) contributes nothing — and the fan-in is a
total function of the results, so the cycle still completes. -/
theorem C1_fanin_isolation (rs : List (Except String (List Metric))) (m : Metric) :
    m ∈ aggregateResults rs ↔ ∃ l, Except.ok l ∈ rs ∧ m ∈ l :=
  mem_aggregateResults rs m

/-- C2 counterexample: the orchestrator's fan-out applies no time bound.
A collector configured with `timeout = 2` whose `collect()` runs for 5
seconds and then returns a metric list yields that successful list, not
the per-collector timeout failure record the claim requires (shown by
the spec-modelled `fanOutSpecResult`). -/
theorem C2_counterexample :
    instanceTimeout (some { enabled := true, timeout := some 2 }) = 2 ∧
    fanOutResult (mkTask (some { enabled := true, timeout := some 2 }) 5
        (Except.ok [format_metric "ontap" "dcn_probe_metric" 1 [] none 0])) =
      Except.ok [format_metric "ontap" "dcn_probe_metric" 1 [] none 0] ∧
    fanOutSpecResult (mkTask (some { enabled := true, timeout := some 2 }) 5
        (Except.ok [format_metric "ontap" "dcn_probe_metric" 1 [] none 0])) =
      Except.error "CollectorTimeout" :=
  ⟨rfl, rfl, rfl⟩

/-- C2 as amended: the orchestrator's fan-out dispatches each enabled
collector's `collect()` with no time bound at all — the configured
timeout is stored at construction but never consulted, so the observed
result is always the call's own outcome — while an internal error in
one collector yields a per-collector failure record that the fan-in
drops locally (the other collector's metrics survive), never a
cycle-wide abort. -/
theorem C2_amended_no_timeout_bound :
    (∀ t : DispatchedTask, fanOutResult t = t.outcome) ∧
    (∀ (e : String) (l : List Metric),
      aggregateResults [Except.error e, Except.ok l] = l) :=
  ⟨fun _ => rfl, fun _ _ => rfl⟩

/-- C3 counterexample: with the first cluster's sub-queries all
succeeding (four probe metrics gathered) and only the second cluster's
latency sub-query failing, `ONTAPCollector.collect` returns `[]`: the
metrics already gathered by earlier sub-queries in the same cycle are
discarded, not returned. -/
theorem C3_counterexample :
    ontapBody subQueryOk subQueryLatencyDown subQueryOk subQueryOk ["c1"] =
      Except.ok [format_metric "ontap" "dcn_probe_metric" 1 [("cluster", "c1")] none 0,
        format_metric "ontap" "dcn_probe_metric" 1 [("cluster", "c1")] none 0,
        format_metric "ontap" "dcn_probe_metric" 1 [("cluster", "c1")] none 0,
        format_metric "ontap" "dcn_probe_metric" 1 [("cluster", "c1")] none 0] ∧
    ontapCollect subQueryOk subQueryLatencyDown subQueryOk subQueryOk ["c1", "c2"] = [] ∧
    format_metric "ontap" "dcn_probe_metric" 1 [("cluster", "c1")] none 0 ∉
      ontapCollect subQueryOk subQueryLatencyDown subQueryOk subQueryOk ["c1", "c2"] := by
  refine ⟨rfl, rfl, ?_⟩
  exact List.not_mem_nil _

/-- C3 as amended: a sub-query failure inside the ONTAP variant is
caught by the variant's single outer `try/except`, which returns the
empty list — so the failure does not escape the collector, but every
metric gathered by earlier sub-queries in that cycle is discarded
rather than returned; only a cycle in which no sub-query fails returns
the accumulated metrics. -/
theorem C3_amended_discard_on_subquery_failure
    (subIops subLatency subThroughput subCapacity : String → Except String (List Metric))
    (clusters : List String) :
    (∀ e, ontapBody subIops subLatency subThroughput subCapacity clusters = Except.error e →
      ontapCollect subIops subLatency subThroughput subCapacity clusters = []) ∧
    (∀ ms, ontapBody subIops subLatency subThroughput subCapacity clusters = Except.ok ms →
      ontapCollect subIops subLatency subThroughput subCapacity clusters = ms) := by
  constructor <;> intro x h <;> simp [ontapCollect, h]

/-- C3 amended-claim witness at a concrete input: the latency sub-query
fails for cluster `c2`, so `collect` on `["c2"]` returns `[]`. -/
theorem C3_amended_witness :
    ontapCollect subQueryOk subQueryLatencyDown subQueryOk subQueryOk ["c2"] = [] :=
  (C3_amended_discard_on_subquery_failure subQueryOk subQueryLatencyDown subQueryOk
    subQueryOk ["c2"]).1 "latency backend down" rfl

/-- C4: the sleep computed by `CollectorService.run` after a cycle that
took `t` seconds with cadence `C` is `max(0, C − t)`: it equals `C − t`
when `t ≤ C`, equals `0` when `t ≥ C` (the next cycle starts with zero
delay), and is never negative. -/
theorem C4_cycle_sleep (C t : Rat) :
    0 ≤ cycleSleep C t ∧ (C ≤ t → cycleSleep C t = 0) ∧ (t ≤ C → cycleSleep C t = C - t) := by
  refine ⟨le_max_left 0 (C - t), fun h => ?_, fun h => ?_⟩
  · exact max_eq_left (sub_nonpos.mpr h)
  · exact max_eq_right (sub_nonneg.mpr h)

/-- C4 witness: with cadence 5, a 7-second cycle sleeps 0 and a
3-second cycle sleeps 2. -/
theorem C4_cycle_sleep_witness : cycleSleep 5 7 = 0 ∧ cycleSleep 5 3 = 2 := by
  constructor
  · exact (C4_cycle_sleep 5 7).2.1 (by norm_num)
  · rw [(C4_cycle_sleep 5 3).2.2 (by norm_num)]
    norm_num

/-- C5 counterexample: when the broker reports a delivery failure (one
record's delivery callback fires with an error) and the flush does not
even time out, `KafkaProducerManager.send_metrics` still returns `None`
to the orchestrator — it returns no failure result — whereas the
spec-modelled `sendSpecResult` returns one. -/
theorem C5_counterexample :
    (send_metrics ⟨1, false, false⟩).returnedFailure = none ∧
    sendSpecResult ⟨1, false, false⟩ = some "PublishFailure" :=
  ⟨rfl, rfl⟩

/-- C5 as amended: on a broker-reported delivery failure or a flush
timeout, `send_metrics` logs the error inside the publisher (via
`_delivery_callback` or the `except` handler) but always returns `None`:
the orchestrator receives no failure result to log or treat as
cycle-level, and the cycle's metrics are simply dropped. -/
theorem C5_amended_publisher_swallows_failure (env : BrokerConditions) :
    (send_metrics env).returnedFailure = none ∧
    (0 < env.deliveryFailures → (send_metrics env).loggedError = true) := by
  refine ⟨rfl, fun h => ?_⟩
  simp [send_metrics, h]

/-- C5 amended-claim witness: two delivery failures with a flush
timeout — `None` is still returned and an error is logged. -/
theorem C5_amended_witness :
    (send_metrics ⟨2, true, false⟩).returnedFailure = none ∧
    (send_metrics ⟨2, true, false⟩).loggedError = true :=
  ⟨(C5_amended_publisher_swallows_failure ⟨2, true, false⟩).1,
    (C5_amended_publisher_swallows_failure ⟨2, true, false⟩).2 (by decide)⟩

/-- C6: if cycle `n`'s publish fails (`pf n = true`), a metric `m`
collected in cycle `n` but not among cycle `n+1`'s own collected
metrics is absent from the batch sent in cycle `n+1`: that batch is
exactly the fan-in of cycle `n+1`'s gather results, because the
orchestrator state carries no metrics across cycle boundaries
(at-most-once, no retry-carryover). -/
theorem C6_no_retry_carryover (results : Nat → List (Except String (List Metric)))
    (pf : Nat → Bool) (s : OrchestratorState) (fuel n : Nat) (m : Metric) (b : List Metric)
    (_hfail : pf n = true) (hfuel : n + 1 < fuel)
    (hb : (batchesSent results pf fuel s)[n + 1]? = some b)
    (hm : m ∉ aggregateResults (results (n + 1))) :
    m ∉ b ∧ b = aggregateResults (results (n + 1)) := by
  rw [batchesSent_getElem results pf s fuel (n + 1) hfuel] at hb
  have hb2 := Option.some.inj hb
  subst hb2
  exact ⟨hm, rfl⟩

/-- C6 witness: cycle 0 collects metric `a` and its publish fails;
cycle 1 collects only metric `b`; metric `a` is not in cycle 1's batch. -/
theorem C6_no_retry_carryover_witness :
    format_metric "ontap" "a" 1 [] none 0 ∉
      aggregateResults ((fun k => if k = 0
        then [Except.ok [format_metric "ontap" "a" 1 [] none 0]]
        else [Except.ok [format_metric "ontap" "b" 1 [] none 0]]) 1) ∧
    aggregateResults ((fun k => if k = 0
        then [Except.ok [format_metric "ontap" "a" 1 [] none 0]]
        else [Except.ok [format_metric "ontap" "b" 1 [] none 0]]) 1) =
      aggregateResults ((fun k => if k = 0
        then [Except.ok [format_metric "ontap" "a" 1 [] none 0]]
        else [Except.ok [format_metric "ontap" "b" 1 [] none 0]]) 1) :=
  C6_no_retry_carryover
    (fun k => if k = 0
      then [Except.ok [format_metric "ontap" "a" 1 [] none 0]]
      else [Except.ok [format_metric "ontap" "b" 1 [] none 0]])
    (fun _ => true) { running := true } 2 0
    (format_metric "ontap" "a" 1 [] none 0)
    (aggregateResults [Except.ok [format_metric "ontap" "b" 1 [] none 0]])
    rfl (by decide) (by decide) (by decide)

/-- C7: a collector whose configuration is absent or has
`enabled = false` is excluded from registration and hence from the
fan-out set — zero `collect()` calls are dispatched to it — and no
metric in any cycle's batch carries that collector's name, since every
produced metric is stamped with its producing collector's name and the
three collector names are distinct. -/
theorem C7_disabled_collector_excluded (cfg : ServiceConfig) (t : CollectorTag)
    (now : Int) (m : Metric) (h : cfgEnabled (cfgOf cfg t) = false) :
    t ∉ dispatchList cfg ∧ (m ∈ cycleBatch cfg now → m.collector ≠ collectorName t) := by
  have hnot : t ∉ initCollectors cfg := by
    intro hmem
    have h2 := cfgEnabled_of_mem_initCollectors hmem
    rw [h] at h2
    exact absurd h2 (by decide)
  constructor
  · rw [dispatchList_eq_initCollectors]
    exact hnot
  · intro hm hname
    simp only [cycleBatch] at hm
    rw [mem_aggregateResults] at hm
    obtain ⟨l, hl, hml⟩ := hm
    rw [List.mem_map] at hl
    obtain ⟨t2, ht2, hok⟩ := hl
    have hrun : m ∈ runCollector cfg t2 now := by
      rw [Except.ok.inj hok]
      exact hml
    have hstamp := collector_stamp cfg t2 now m hrun
    rw [hstamp] at hname
    have : t2 = t := collectorName_injective hname
    subst this
    rw [dispatchList_eq_initCollectors] at ht2
    exact hnot ht2

/-- C7 witness: with the ONTAP collector absent from configuration and
StorageGRID enabled on `grid-01`, ONTAP is not dispatched and the
sample GET-operations metric of the batch does not carry the name
`ontap`. -/
theorem C7_disabled_collector_excluded_witness :
    CollectorTag.ontap ∉ dispatchList cfgOntapDisabled ∧
    (format_metric "storagegrid" "dcn_storagegrid_s3_operations_total" 15000
        [("grid", "grid-01"), ("operation", "GET")] none 0 ∈ cycleBatch cfgOntapDisabled 0 →
      (format_metric "storagegrid" "dcn_storagegrid_s3_operations_total" 15000
        [("grid", "grid-01"), ("operation", "GET")] none 0).collector ≠ "ontap") :=
  C7_disabled_collector_excluded cfgOntapDisabled CollectorTag.ontap 0
    (format_metric "storagegrid" "dcn_storagegrid_s3_operations_total" 15000
      [("grid", "grid-01"), ("operation", "GET")] none 0) rfl

/-- C8: the dispatch set is exactly the registered collectors in
registration order (the `collector.enabled` filter removes nothing,
since only enabled collectors are registered), and the cycle's batch is
the concatenation of the per-collector metric lists in that order —
grouped by collector in registration order, emission order preserved
within each group. -/
theorem C8_batch_ordering (cfg : ServiceConfig) (now : Int) :
    dispatchList cfg = initCollectors cfg ∧
    cycleBatch cfg now = ((initCollectors cfg).map fun t => runCollector cfg t now).flatten := by
  refine ⟨dispatchList_eq_initCollectors cfg, ?_⟩
  simp only [cycleBatch, dispatchList_eq_initCollectors]
  rw [← aggregateResults_map_ok, List.map_map]
  rfl

/-- C9 counterexample: the generic collector with two identically named
sources emits two metrics with the same name and the identical labels
mapping in one cycle — the duplicate-emission invariant does not hold
for every configuration. -/
theorem C9_counterexample : ¬ noDupKeys (genericCollectOk ["s1", "s1"] 0) := by
  intro h
  unfold noDupKeys at h
  rw [show genericCollectOk ["s1", "s1"] 0 =
      [format_metric "generic" "dcn_s1_metric" 100 [("source", "s1")] none 0,
        format_metric "generic" "dcn_s1_metric" 100 [("source", "s1")] none 0] from rfl] at h
  exact (List.pairwise_cons.mp h).1 _ (List.mem_cons_self _ _)
    ⟨rfl, labelsSameMap_refl _⟩

/-- C9 as amended: provided the configured target names are pairwise
distinct (as they are in the shipped configuration), no two metrics
produced by the same collector within one cycle agree on both `name`
and the `labels` mapping: shown for the ONTAP variant over any
duplicate-free cluster list and for the generic variant over any
duplicate-free source list. -/
theorem C9_amended_no_duplicate_keys (clusters sources : List String) (now : Int)
    (h1 : clusters.Nodup) (h2 : sources.Nodup) :
    noDupKeys (ontapCollectOk clusters now) ∧ noDupKeys (genericCollectOk sources now) :=
  ⟨ontap_noDupKeys clusters now h1, generic_noDupKeys sources now h2⟩

/-- C9 amended-claim witness at the shipped ONTAP cluster list and a
two-source generic list. -/
theorem C9_amended_witness :
    noDupKeys (ontapCollectOk ["prod-cluster-01", "prod-cluster-02"] 0) ∧
    noDupKeys (genericCollectOk ["alpha", "beta"] 0) :=
  C9_amended_no_duplicate_keys ["prod-cluster-01", "prod-cluster-02"] ["alpha", "beta"] 0
    (by decide) (by decide)

/-- C10: `format_metric` applies the wall-clock default to every falsy
timestamp — a caller-supplied timestamp of `0` is replaced by the
current time `now`, exactly as an absent timestamp is — while any
nonzero supplied timestamp is kept. -/
theorem C10_format_metric_timestamp (collectorName name : String) (v : Rat)
    (labels : List (String × String)) (now t : Int) :
    (format_metric collectorName name v labels (some 0) now).timestamp = now ∧
    (format_metric collectorName name v labels none now).timestamp = now ∧
    (t ≠ 0 → (format_metric collectorName name v labels (some t) now).timestamp = t) := by
  refine ⟨rfl, rfl, fun ht => ?_⟩
  simp [format_metric, ht]

/-- C10 witness: a supplied timestamp of 42 is kept, a supplied
timestamp of 0 is replaced by the clock value 7. -/
theorem C10_format_metric_timestamp_witness :
    (format_metric "ontap" "m" 1 [] (some 42) 7).timestamp = 42 ∧
    (format_metric "ontap" "m" 1 [] (some 0) 7).timestamp = 7 :=
  ⟨(C10_format_metric_timestamp "ontap" "m" 1 [] 7 42).2.2 (by decide),
    (C10_format_metric_timestamp "ontap" "m" 1 [] 7 0).1⟩

end DCN
